import Mathlib

/-!
Verification of the Landover Hills budget assistant: a shallow embedding of
the intent resolver `handleIntent` (public/assistant.js, the TypeScript
resolver embedded there) and of the HTTP route handlers under
app/api/budget/*/route.ts, together with proofs about the answer formatting,
partial-data disclosure, source citations, and error envelopes.

Modelling conventions:
* JavaScript runtime values that flow through the resolver are modelled by the
  inductive `Json` below.  Numbers are modelled as `Int` (every numeric value
  in this system is an integral dollar amount, a count, or a limit); the IEEE
  value NaN is tracked by a separate constructor.
* Code that can throw a `TypeError` (property access on null/undefined,
  calling an array method on a non-array) runs in `Except JsErr`.
* `fetch` is modelled by passing the parsed response body of each endpoint to
  the resolver explicitly (a `Backend` record); URL percent-encoding is the
  identity on the transported parameters and is not modelled.
-/

/-! ### Decimal digits, JS number rendering and parsing -/

/-- The decimal digit character for a digit value (the value is reduced modulo
ten, so every input lands on an actual digit). -/
def digitChar (d : Nat) : Char := Char.ofNat (48 + d % 10)

/-- Digit value of a decimal digit character. -/
def digitVal (c : Char) : Option Nat :=
  if '0' ≤ c ∧ c ≤ '9' then some (c.toNat - 48) else none

/-- Little-endian decimal digits, structurally recursive on a fuel bound so
that concrete values reduce inside the kernel. -/
def natRevDigitsAux : Nat → Nat → List Char
  | 0, _ => []
  | fuel + 1, n =>
    if n < 10 then [digitChar n]
    else digitChar (n % 10) :: natRevDigitsAux fuel (n / 10)

/-- Little-endian decimal digits of a natural number. -/
def natRevDigits (n : Nat) : List Char := natRevDigitsAux (n + 1) n

theorem natRevDigitsAux_irrel (f1 : Nat) :
    ∀ (f2 n : Nat), n < f1 → n < f2 →
      natRevDigitsAux f1 n = natRevDigitsAux f2 n := by
  induction f1 with
  | zero => omega
  | succ f1 ih =>
    intro f2 n h1 h2
    cases f2 with
    | zero => omega
    | succ f2 =>
      show (if n < 10 then [digitChar n]
        else digitChar (n % 10) :: natRevDigitsAux f1 (n / 10)) =
        (if n < 10 then [digitChar n]
        else digitChar (n % 10) :: natRevDigitsAux f2 (n / 10))
      split
      · rfl
      · next h =>
        rw [ih f2 (n / 10) (by omega) (by omega)]

/-- The recurrence `natRevDigits` satisfies. -/
theorem natRevDigits_eq (n : Nat) :
    natRevDigits n =
      if n < 10 then [digitChar n]
      else digitChar (n % 10) :: natRevDigits (n / 10) := by
  show (if n < 10 then [digitChar n]
    else digitChar (n % 10) :: natRevDigitsAux n (n / 10)) = _
  split
  · rfl
  · next h =>
    rw [natRevDigitsAux_irrel n (n / 10 + 1) (n / 10) (by omega) (by omega)]
    rfl

/-- Decimal representation of a natural number (JS `Number.prototype.toString`
on naturals). -/
def natStr (n : Nat) : String := ⟨(natRevDigits n).reverse⟩

/-- JS `Number.prototype.toString` on integers (template-literal
interpolation `${n}` of an integral number). -/
def intRepr (n : Int) : String :=
  if n < 0 then ("-") ++ natStr n.natAbs else natStr n.natAbs

/-- Thousands-separator insertion, structurally recursive on a fuel bound so
that concrete values reduce inside the kernel. -/
def group3Aux : Nat → List Char → List Char
  | 0, ds => ds
  | fuel + 1, ds =>
    if ds.length ≤ 3 then ds
    else ds.take 3 ++ ',' :: group3Aux fuel (ds.drop 3)

/-- Insert a thousands separator after every three digits of a little-endian
digit list. -/
def group3 (ds : List Char) : List Char := group3Aux ds.length ds

theorem group3Aux_irrel (f1 : Nat) :
    ∀ (f2 : Nat) (ds : List Char), ds.length ≤ 3 * f1 + 3 → ds.length ≤ 3 * f2 + 3 →
      group3Aux f1 ds = group3Aux f2 ds := by
  induction f1 with
  | zero =>
    intro f2 ds h1 h2
    cases f2 with
    | zero => rfl
    | succ f2 =>
      show ds = if ds.length ≤ 3 then ds
        else ds.take 3 ++ ',' :: group3Aux f2 (ds.drop 3)
      rw [if_pos (by omega)]
  | succ f1 ih =>
    intro f2 ds h1 h2
    cases f2 with
    | zero =>
      show (if ds.length ≤ 3 then ds
        else ds.take 3 ++ ',' :: group3Aux f1 (ds.drop 3)) = ds
      rw [if_pos (by omega)]
    | succ f2 =>
      show (if ds.length ≤ 3 then ds
        else ds.take 3 ++ ',' :: group3Aux f1 (ds.drop 3)) =
        (if ds.length ≤ 3 then ds
        else ds.take 3 ++ ',' :: group3Aux f2 (ds.drop 3))
      split
      · rfl
      · next h =>
        rw [ih f2 (ds.drop 3) (by simp [List.length_drop]; omega)
          (by simp [List.length_drop]; omega)]

/-- The recurrence `group3` satisfies. -/
theorem group3_eq (ds : List Char) :
    group3 ds =
      if ds.length ≤ 3 then ds
      else ds.take 3 ++ ',' :: group3 (ds.drop 3) := by
  by_cases h : ds.length ≤ 3
  · rw [if_pos h, group3, group3Aux_irrel ds.length 0 ds (by omega) (by omega)]
    rfl
  · rw [if_neg h]
    show group3Aux ds.length ds = _
    obtain ⟨k, hk⟩ : ∃ k, ds.length = k + 1 := ⟨ds.length - 1, by omega⟩
    rw [hk]
    show (if ds.length ≤ 3 then ds
      else ds.take 3 ++ ',' :: group3Aux k (ds.drop 3)) = _
    rw [if_neg h,
      group3Aux_irrel k ((ds.drop 3).length) (ds.drop 3)
        (by simp [List.length_drop]; omega) (by omega)]
    rfl

/-- Model of `Number.prototype.toLocaleString('en-US')` on naturals: decimal digits
grouped in threes by commas. -/
def natGrouped (n : Nat) : String := ⟨(group3 (natRevDigits n)).reverse⟩

/-- Model of `Number.prototype.toLocaleString('en-US')` on integers. -/
def intGrouped (n : Int) : String :=
  (if n < 0 then ("-") else ("")) ++ natGrouped n.natAbs

/-- Value of a most-significant-first digit list. -/
def valOfDigits (l : List Char) : Nat :=
  l.foldl (fun a c => 10 * a + ((digitVal c).getD 0)) 0

/-- Parse a nonempty all-digit character list; `none` otherwise. -/
def parseNatDigits (l : List Char) : Option Nat :=
  if l.isEmpty then none
  else if l.all (fun c => (digitVal c).isSome) then some (valOfDigits l)
  else none

/-- Model of JS `Number(string)` restricted to optionally-signed decimal
integer literals; every other string is NaN (`none`).  (Full JS numeric
coercion — whitespace trimming, decimals, exponents, the empty string being 0
— is not needed by any flow in this program: the only string ever passed is
the canonical decimal rendering of the resolver's `limit`.) -/
def jsParseNumber (s : String) : Option Int :=
  match s.data with
  | [] => none
  | c :: rest =>
    if c = '-' then (parseNatDigits rest).map (fun n => -(n : Int))
    else (parseNatDigits (c :: rest)).map (fun n => (n : Int))

/-! ### A model of the JavaScript values flowing through the resolver -/

/-- Errors thrown by the modelled JS operations (all are `TypeError`s:
property access on nullish values, calling a missing method). -/
inductive JsErr where
  | typeError
deriving Repr, DecidableEq

/-- JS runtime values (JSON payloads plus `undefined` and `NaN`). -/
inductive Json where
  | null
  | undef
  | nan
  | bool (b : Bool)
  | num (n : Int)
  | str (s : String)
  | arr (xs : List Json)
  | obj (fs : List (String × Json))

/-- First binding of a field name in an object literal; `undefined` when
absent. -/
def lookupField : List (String × Json) → String → Json
  | [], _ => .undef
  | (k, v) :: fs, f => if k == f then v else lookupField fs f

/-- Plain property access `j.f`: throws on nullish receivers, looks fields up
on objects, exposes `length` on arrays and strings, and yields `undefined`
otherwise. -/
def getField (j : Json) (f : String) : Except JsErr Json :=
  match j with
  | .null | .undef => .error .typeError
  | .obj fs => .ok (lookupField fs f)
  | .arr xs => .ok (if f == "length" then .num xs.length else .undef)
  | .str s => .ok (if f == "length" then .num s.length else .undef)
  | _ => .ok (.undef)

/-- Optional-chaining access `j?.f`: `undefined` on nullish receivers, never
throws. -/
def optField (j : Json) (f : String) : Json :=
  match j with
  | .null | .undef => .undef
  | .obj fs => lookupField fs f
  | .arr xs => if f == "length" then .num xs.length else .undef
  | .str s => if f == "length" then .num s.length else .undef
  | _ => (.undef)

/-- JS truthiness. -/
def truthy : Json → Bool
  | .null | .undef | .nan => false
  | .bool b => b
  | .num n => n != 0
  | .str s => s != ""
  | .arr _ => true
  | .obj _ => true

/-- JS strict equality `===` on the values compared in this program.  Arrays
and objects compare by reference; two independently produced values are never
reference-equal, so the model returns `false` for them (the resolver only ever
compares field values against string literals). -/
def jsEq : Json → Json → Bool
  | .null, .null => true
  | .undef, .undef => true
  | .bool a, .bool b => a == b
  | .num a, .num b => a == b
  | .str a, .str b => a == b
  | _, _ => false

/-- JS loose equality against `null` (`x == null`): true exactly for `null`
and `undefined`. -/
def isNullish : Json → Bool
  | .null | .undef => true
  | _ => false

/-- JS `ToNumber` on the values this program computes with, `none` standing
for NaN.  Strings parse as decimal integer literals (see `jsParseNumber`);
array/object coercion is not modelled (`none`) — no flow in this program
coerces them. -/
def toNumber : Json → Option Int
  | .num n => some n
  | .nan => none
  | .null => some 0
  | .bool b => some (if b then 1 else 0)
  | .undef => none
  | .str s => jsParseNumber s
  | .arr _ => none
  | .obj _ => none

/-- JS subtraction `a - b` (numeric coercion; NaN-propagating). -/
def jsSub (a b : Json) : Json :=
  match toNumber a, toNumber b with
  | some x, some y => .num (x - y)
  | _, _ => .nan

/-- JS `Math.abs`. -/
def jsAbs (j : Json) : Json :=
  match toNumber j with
  | some x => .num (x.natAbs : Int)
  | none => .nan

/-- JS `j >= 0` (false on NaN). -/
def jsGeZero (j : Json) : Bool :=
  match toNumber j with
  | some x => decide (0 ≤ x)
  | none => false

/-- ASCII upper-casing, the effect of JS `String.prototype.toUpperCase` on the
ASCII category names of this dataset. -/
def asciiUpper (s : String) : String := ⟨s.data.map Char.toUpper⟩

/-- JS `j.toUpperCase()`: only strings have the method; every other receiver
throws a `TypeError` (nullish access or "not a function"). -/
def jsUpper (j : Json) : Except JsErr String :=
  match j with
  | .str s => .ok (asciiUpper s)
  | _ => .error .typeError

/-- JS `String(j)` as used by template-literal interpolation.  Array
stringification is not modelled (no flow in this program interpolates an
array). -/
def jsStr : Json → String
  | .null => "null"
  | .undef => "undefined"
  | .nan => "NaN"
  | .bool b => if b then ("true") else ("false")
  | .num n => intRepr n
  | .str s => s
  | .arr _ => ""
  | .obj _ => "[object Object]"

/-! ### The resolver's small library and the array methods it calls -/

/-- The formatter `USD` from assistant.js:
`n => typeof n === 'number' && !isNaN(n) ? `$${n.toLocaleString('en-US')}` : '$0'`. -/
def USD (j : Json) : String :=
  match j with
  | .num n => "$" ++ intGrouped n
  | _ => "$0"

/-- JS `Array.prototype.find` over the element list (first match, `undefined`
when none; the predicate may throw). -/
def jsFindList (p : Json → Except JsErr Bool) : List Json → Except JsErr Json
  | [] => .ok .undef
  | x :: xs => do
    let b ← p x
    if b then .ok x else jsFindList p xs

/-- JS `j.find(p)`: throws unless the receiver is an array. -/
def jsFind (j : Json) (p : Json → Except JsErr Bool) : Except JsErr Json :=
  match j with
  | .arr xs => jsFindList p xs
  | _ => .error .typeError

/-- JS `Array.prototype.some` over the element list. -/
def jsSomeList (p : Json → Except JsErr Bool) : List Json → Except JsErr Bool
  | [] => .ok false
  | x :: xs => do
    let b ← p x
    if b then .ok true else jsSomeList p xs

/-- JS `j.some(p)`: throws unless the receiver is an array. -/
def jsSome (j : Json) (p : Json → Except JsErr Bool) : Except JsErr Bool :=
  match j with
  | .arr xs => jsSomeList p xs
  | _ => .error .typeError

/-- JS `Array.prototype.map` with a string-producing callback. -/
def jsMapStrList (f : Json → Except JsErr String) : List Json → Except JsErr (List String)
  | [] => .ok []
  | x :: xs => do
    let s ← f x
    let rest ← jsMapStrList f xs
    .ok (s :: rest)

/-- JS `j.map(f)`: throws unless the receiver is an array. -/
def jsMapStr (j : Json) (f : Json → Except JsErr String) : Except JsErr (List String) :=
  match j with
  | .arr xs => jsMapStrList f xs
  | _ => .error .typeError

/-- JS `Array.prototype.map` with an index-aware string-producing callback,
carrying the current index. -/
def jsMapIdxStrList (f : Nat → Json → Except JsErr String) (i : Nat) :
    List Json → Except JsErr (List String)
  | [] => .ok []
  | x :: xs => do
    let s ← f i x
    let rest ← jsMapIdxStrList f (i + 1) xs
    .ok (s :: rest)

/-- JS `j.map((r, i) => ...)`: throws unless the receiver is an array. -/
def jsMapIdxStr (j : Json) (f : Nat → Json → Except JsErr String) :
    Except JsErr (List String) :=
  match j with
  | .arr xs => jsMapIdxStrList f 0 xs
  | _ => .error .typeError

/-! ### Data model (src/bot/types.ts) -/

/-- The union `type Year = 'FY24'|'FY25'|'FY26'` (src/bot/types.ts). -/
inductive Year where
  | FY24 | FY25 | FY26
deriving Repr, DecidableEq

/-- The string value of a `Year` literal. -/
def Year.str : Year → String
  | .FY24 => "FY24"
  | .FY25 => "FY25"
  | .FY26 => "FY26"

/-- The union `type Intent` (src/bot/types.ts): the closed union of classified intents. -/
inductive Intent where
  | year_total (year : Year) (partial_data : Option Bool)
  | yoy_difference (year_from : Year) (year_to : Year)
  | yoy_all
  | category_rank (year : Year) (top_n : Option Int)
  | category_share (year : Year) (category : String)
  | line_item_total (year : Year) (category : String) (line_item : String)
  | help (question : String)

/-- A runtime intent value reaching `handleIntent`'s `switch`: either one of
the seven typed variants, or (the classifier being an untyped boundary) a
value whose `action` tag is some other string, which falls to the `default`
arm. -/
inductive IntentV where
  | known (i : Intent)
  | unknown (action : String)

/-- The seven `case` labels of `handleIntent`'s `switch`. -/
def knownActions : List String :=
  ["year_total", "yoy_difference", "yoy_all", "category_rank",
   "category_share", "line_item_total", "help"]

/-- The `action` tag of a runtime intent value. -/
def IntentV.actionTag : IntentV → String
  | .known (.year_total _ _) => "year_total"
  | .known (.yoy_difference _ _) => "yoy_difference"
  | .known .yoy_all => "yoy_all"
  | .known (.category_rank _ _) => "category_rank"
  | .known (.category_share _ _) => "category_share"
  | .known (.line_item_total _ _ _) => "line_item_total"
  | .known (.help _) => "help"
  | .unknown a => a

/-- The constant `PARTIAL_NOTE` (assistant.js). -/
def partialNote : String := "Note: FY26 data is partial."

/-- The `default` arm's answer in `handleIntent`. -/
def fallbackAnswer : String := "Sorry, I could not interpret that request."

/-- The parsed JSON bodies the resolver's five `fetch` calls receive, keyed by
endpoint; query parameters are passed as the resolver puts them in the URL
(percent-encoding/decoding cancels and is not modelled). -/
structure Backend where
  yearTotals : Json
  yoy : Json
  category : String → Int → Json
  shares : String → Json
  lineItem : String → String → String → Json

/-- The `r => r.fiscal_year === <year>` arrow passed to `.find`/`.some`. -/
def fyPred (ystr : String) (r : Json) : Except JsErr Bool := do
  let fy ← getField r ("fiscal_year")
  .ok (jsEq fy (.str ystr))

/-- The `r => r.category.toUpperCase() === intent.category.toUpperCase()`
arrow passed to `.find` in the `category_share` branch. -/
def catPred (cat : String) (r : Json) : Except JsErr Bool := do
  let c ← getField r ("category")
  let u ← jsUpper c
  .ok (u == asciiUpper cat)

/-- The `r => ...` arrow passed to `.map` in the `yoy_all` branch. -/
def yoyLineFn (r : Json) : Except JsErr String := do
  let ch ← getField r ("yoy_change")
  if isNullish ch then do
    let fy ← getField r ("fiscal_year")
    let t ← getField r ("total")
    .ok (jsStr fy ++ ": base " ++ USD t)
  else do
    let sign := if jsGeZero ch then ("+") else ("−")
    let fy ← getField r ("fiscal_year")
    let t ← getField r ("total")
    .ok (jsStr fy ++ ": " ++ sign ++ USD (jsAbs ch) ++ " (total " ++ USD t ++ ")")

/-- The `(r, i) => ...` arrow passed to `.map` in the `category_rank` branch. -/
def rankLineFn (i : Nat) (r : Json) : Except JsErr String := do
  let c ← getField r ("category")
  let t ← getField r ("total")
  .ok (natStr (i + 1) ++ ". " ++ jsStr c ++ ": " ++ USD t)

/-- The resolver `handleIntent` (assistant.js): the intent resolver, one `switch` arm per
intent variant, returning the formatted answer string (or throwing a
`TypeError` when the response body does not have the shape an arm assumes). -/
def handleIntent (intent : IntentV) (b : Backend) : Except JsErr String :=
  match intent with
  | .known (.year_total year _) => do
    let rows := b.yearTotals
    let row ← jsFind rows (fyPred year.str)
    let msg := "Total " ++ year.str ++ " budget: " ++ USD (optField row ("total")) ++
      ". Source: v_year_totals(" ++ year.str ++ ")."
    .ok (if year = .FY26 then msg ++ " " ++ partialNote else msg)
  | .known (.yoy_difference year_from year_to) => do
    let rows := b.yoy
    let toRow ← jsFind rows (fyPred year_to.str)
    let fromRow ← jsFind rows (fyPred year_from.str)
    if ¬ truthy toRow ∨ ¬ truthy fromRow then
      .ok ("I could not find the requested years.")
    else do
      let toTotal ← getField toRow ("total")
      let fromTotal ← getField fromRow ("total")
      let delta := jsSub toTotal fromTotal
      let msg := "Change from " ++ year_from.str ++ " to " ++ year_to.str ++ ": " ++
        USD delta ++ " (" ++ USD fromTotal ++ " → " ++ USD toTotal ++
        "). Source: v_year_yoy."
      .ok (if year_to = .FY26 ∨ year_from = .FY26 then msg ++ " " ++ partialNote else msg)
  | .known .yoy_all => do
    let rows := b.yoy
    let lines ← jsMapStr rows yoyLineFn
    let msg := "Year-over-year changes:\n- " ++ String.intercalate ("\n- ") lines ++
      "\nSource: v_year_yoy."
    let hasPartialYear ← jsSome rows (fyPred ("FY26"))
    .ok (if hasPartialYear then msg ++ "\n" ++ partialNote else msg)
  | .known (.category_rank year top_n) => do
    let limit := top_n.getD 10
    let json := b.category year.str limit
    let rows ← getField json ("data")
    if ¬ truthy (optField rows ("length")) then
      .ok ("No categories found for " ++ year.str ++ ".")
    else do
      let lines ← jsMapIdxStr rows rankLineFn
      let msg := "Top " ++ intRepr limit ++ " categories in " ++ year.str ++ ":\n" ++
        String.intercalate ("\n") lines ++
        "\nSource: v_category_totals(" ++ year.str ++ ")."
      let p ← getField json ("partial")
      .ok (if truthy p then msg ++ "\n" ++ partialNote else msg)
  | .known (.category_share year category) => do
    let json := b.shares year.str
    let rows ← getField json ("data")
    let row ← jsFind rows (catPred category)
    if ¬ truthy row then
      .ok ("No data for " ++ category ++ " in " ++ year.str ++ ".")
    else do
      let t ← getField row ("total")
      let pct ← getField row ("pct_of_year")
      let msg := category ++ " in " ++ year.str ++ ": " ++ USD t ++ " (" ++
        jsStr pct ++ "% of total). Source: v_category_shares(" ++ year.str ++ ")."
      .ok (if year = .FY26 then msg ++ " " ++ partialNote else msg)
  | .known (.line_item_total year category line_item) => do
    let json := b.lineItem year.str category line_item
    let t ← getField json ("total")
    let msg := year.str ++ " " ++ category ++ " → " ++ line_item ++ ": " ++ USD t ++
      ". Source: v_line_items."
    let p ← getField json ("partial")
    .ok (if truthy p then msg ++ " " ++ partialNote else msg)
  | .known (.help question) => .ok question
  | .unknown _ => .ok fallbackAnswer

/-! ### Typed rows of the view layer and their JSON encodings -/

/-- A row of `v_year_totals` as typed in the resolver and in
app/api/budget/year-totals/route.ts: `{ fiscal_year: Year; total: number }`. -/
structure YearTotalRow where
  fiscal_year : Year
  total : Int

/-- A row of `v_year_yoy`:
`{ fiscal_year: Year; total: number; yoy_change: number|null }`. -/
structure YoYRow where
  fiscal_year : Year
  total : Int
  yoy_change : Option Int

/-- A row of `v_category_totals`: `{ category: string; total: number }`. -/
structure CatRow where
  category : String
  total : Int

/-- A row of `v_category_shares`:
`{ category: string; total: number; pct_of_year: number }`.  Percentages in
the dataset may be fractional; they are only ever interpolated verbatim, and
the modelled rows carry integral values. -/
structure ShareRow where
  category : String
  total : Int
  pct_of_year : Int

/-- JSON encoding of a `v_year_totals` row. -/
def encodeYearTotalRow (r : YearTotalRow) : Json :=
  .obj [("fiscal_year", .str r.fiscal_year.str), ("total", .num r.total)]

/-- JSON encoding of a `v_year_yoy` row (`yoy_change` is `null` on the base
year). -/
def encodeYoYRow (r : YoYRow) : Json :=
  .obj [("fiscal_year", .str r.fiscal_year.str), ("total", .num r.total),
        ("yoy_change", match r.yoy_change with | some c => .num c | none => .null)]

/-- JSON encoding of a category-ranking row. -/
def encodeCatRow (r : CatRow) : Json :=
  .obj [("category", .str r.category), ("total", .num r.total)]

/-- JSON encoding of a category-share row. -/
def encodeShareRow (r : ShareRow) : Json :=
  .obj [("category", .str r.category), ("total", .num r.total),
        ("pct_of_year", .num r.pct_of_year)]

/-! ### The HTTP endpoint layer (app/api/budget/STAR/route.ts)

Each handler runs the underlying query (an external lib/Supabase call,
received here as an `Except` value: `.error` models the awaited promise
rejecting) inside `try`/`catch` and wraps the result in the envelope the
source literally builds. -/

/-- A value thrown by the awaited query: either an `Error` object carrying a
message, or some non-`Error` value. -/
inductive Thrown where
  | errObj (message : String)
  | nonError

/-- Computes `error instanceof Error ? error.message : 'Unknown error'`. -/
def thrownDetails : Thrown → String
  | .errObj m => m
  | .nonError => "Unknown error"

/-- The pair `NextResponse.json(body, { status })` produces. -/
structure HttpResponse where
  status : Nat
  body : Json

/-- The catch-arm body shared by every route:
`{ success: false, error: <msg>, details: <details> }`. -/
def errBody (msg : String) (t : Thrown) : Json :=
  .obj [("success", .bool false), ("error", .str msg),
        ("details", .str (thrownDetails t))]

/-- Modelled from the spec: `isPartial` from src/lib/budget.ts is not in the
sources; the spec states the partial-data flag is "a pure function of fiscal
year identity (one hardcoded current/incomplete year)", the incomplete year
being FY26 (`PARTIAL_NOTE`, the tests' "FY26 is marked as partial"). -/
def isPartialYear (year : String) : Bool := year == "FY26"

/-- Modelled from the spec: `usd` from src/lib/budget.ts is not in the
sources; the spec's currency-formatting rule is US dollars with thousands
separators. -/
def usdLib (n : Int) : String := "$" ++ intGrouped n

/-- Modelled from the spec: `getCategoryRanking` from src/lib/budget.ts is
not in the sources; the spec states it returns the year's ranked categories
"limited to top N".  The per-year ranked view is the input; a NaN limit
(`none`, unreachable from the resolver's flows) is modelled as no limit. -/
def getCategoryRanking (view : List CatRow) (limit : Option Int) : List CatRow :=
  match limit with
  | some l => view.take l.toNat
  | none => view

/-- GET of app/api/budget/year-totals/route.ts. -/
def yearTotalsGET (q : Except Thrown (List YearTotalRow)) : HttpResponse :=
  match q with
  | .ok data =>
    ⟨200, .obj [("success", .bool true),
                ("data", .arr (data.map encodeYearTotalRow)),
                ("message", .str ("Year totals retrieved successfully"))]⟩
  | .error e => ⟨500, errBody ("Failed to fetch year totals") e⟩

/-- GET of app/api/budget/yoy/route.ts. -/
def yoyGET (q : Except Thrown (List YoYRow)) : HttpResponse :=
  match q with
  | .ok data =>
    ⟨200, .obj [("success", .bool true),
                ("data", .arr (data.map encodeYoYRow)),
                ("message", .str ("Year-over-year data retrieved successfully"))]⟩
  | .error e => ⟨500, errBody ("Failed to fetch year-over-year data") e⟩

/-- GET of the category-ranking route (`/api/budget/category`):
`year` defaults to FY25, `limit` to 10 (`Number(searchParams.get('limit') ?? 10)`);
the ranking query receives the per-year view through `catView`. -/
def categoryGET (yearParam limitParam : Option String)
    (catView : String → Except Thrown (List CatRow)) : HttpResponse :=
  let year := yearParam.getD ("FY25")
  let limit : Option Int := match limitParam with
    | none => some 10
    | some s => jsParseNumber s
  match catView year with
  | .ok view =>
    ⟨200, .obj [("success", .bool true),
                ("year", .str year),
                ("partial", .bool (isPartialYear year)),
                ("data", .arr ((getCategoryRanking view limit).map encodeCatRow)),
                ("message", .str ("Category rankings for " ++ year ++
                  " retrieved successfully"))]⟩
  | .error e => ⟨500, errBody ("Failed to fetch category rankings") e⟩

/-- GET of app/api/budget/shares/route.ts: `year` defaults to FY25. -/
def sharesGET (yearParam : Option String)
    (sharesView : String → Except Thrown (List ShareRow)) : HttpResponse :=
  let year := yearParam.getD ("FY25")
  match sharesView year with
  | .ok data =>
    ⟨200, .obj [("success", .bool true),
                ("year", .str year),
                ("partial", .bool (isPartialYear year)),
                ("data", .arr (data.map encodeShareRow)),
                ("message", .str ("Category shares for " ++ year ++
                  " retrieved successfully"))]⟩
  | .error e => ⟨500, errBody ("Failed to fetch category shares") e⟩

/-- GET of app/api/budget/line-item/route.ts: defaults
`year=FY24`, `category=ADMINISTRATION`, `lineItem=Payroll Taxes`. -/
def lineItemGET (yearParam catParam liParam : Option String)
    (total : String → String → String → Except Thrown Int) : HttpResponse :=
  let year := yearParam.getD ("FY24")
  let category := catParam.getD ("ADMINISTRATION")
  let lineItem := liParam.getD ("Payroll Taxes")
  match total year category lineItem with
  | .ok n =>
    ⟨200, .obj [("success", .bool true),
                ("year", .str year),
                ("category", .str category),
                ("lineItem", .str lineItem),
                ("total", .num n),
                ("formatted", .str (usdLib n)),
                ("partial", .bool (isPartialYear year)),
                ("message", .str ("Line item total for " ++ lineItem ++ " in " ++
                  category ++ " (" ++ year ++ ") retrieved successfully"))]⟩
  | .error e => ⟨500, errBody ("Failed to fetch line item total") e⟩

/-- GET of app/api/budget/category-yoy/route.ts: `year1` defaults to FY24,
`year2` to FY25; an omitted or empty `category` (JS falsiness of
`searchParams.get('category') ?? ''`) returns 400 before the query runs.  The
query result is received as `q` (its row shape comes from the absent
`getCategoryYoY` and is opaque here). -/
def categoryYoyGET (y1p y2p catP : Option String) (q : Except Thrown Json) :
    HttpResponse :=
  let year1 := y1p.getD ("FY24")
  let year2 := y2p.getD ("FY25")
  let category := catP.getD ("")
  if category == "" then
    ⟨400, .obj [("success", .bool false),
                ("error", .str ("Category parameter is required"))]⟩
  else
    match q with
    | .ok data =>
      ⟨200, .obj [("success", .bool true),
                  ("year1", .str year1),
                  ("year2", .str year2),
                  ("category", .str category),
                  ("data", data),
                  ("message", .str ("Category YoY change for " ++ category ++
                    " from " ++ year1 ++ " to " ++ year2 ++
                    " retrieved successfully"))]⟩
    | .error e => ⟨500, errBody ("Failed to fetch category year-over-year data") e⟩

/-! ### Composing the resolver with the view layer -/

/-- A snapshot of the view layer with every query succeeding: the inputs of
the five read operations the resolver can trigger. -/
structure OkDb where
  yearTotals : List YearTotalRow
  yoy : List YoYRow
  catView : String → List CatRow
  sharesView : String → List ShareRow
  lineItemTotal : String → String → String → Int

/-- The response bodies the resolver's fetches receive, in the shape the
resolver itself is typed against: the year-totals and yoy bodies are the bare
row arrays (`const rows: {...}[] = await res.json()`), while the category,
shares and line-item bodies are the envelopes the corresponding route
handlers build (the resolver reads `json.data` / `json.partial` /
`json.total` from them).  Note the asymmetry: the year-totals and yoy route
handlers in src also wrap their rows in an envelope, which the resolver does
NOT unwrap — that mismatch is analysed against `routeBackend` below. -/
def resolverBackend (d : OkDb) : Backend where
  yearTotals := .arr (d.yearTotals.map encodeYearTotalRow)
  yoy := .arr (d.yoy.map encodeYoYRow)
  category := fun y l =>
    (categoryGET (some y) (some (intRepr l)) (fun yr => .ok (d.catView yr))).body
  shares := fun y => (sharesGET (some y) (fun yr => .ok (d.sharesView yr))).body
  lineItem := fun y c li =>
    (lineItemGET (some y) (some c) (some li)
      (fun a b c2 => .ok (d.lineItemTotal a b c2))).body

/-- The response bodies as the route handlers under app/api/budget produce
them for every endpoint, including year-totals and yoy (full envelopes). -/
def routeBackend (d : OkDb) : Backend where
  yearTotals := (yearTotalsGET (.ok d.yearTotals)).body
  yoy := (yoyGET (.ok d.yoy)).body
  category := fun y l =>
    (categoryGET (some y) (some (intRepr l)) (fun yr => .ok (d.catView yr))).body
  shares := fun y => (sharesGET (some y) (fun yr => .ok (d.sharesView yr))).body
  lineItem := fun y c li =>
    (lineItemGET (some y) (some c) (some li)
      (fun a b c2 => .ok (d.lineItemTotal a b c2))).body

/-! ### Arithmetic facts about the digit machinery -/

theorem digitVal_digitChar (d : Nat) (h : d < 10) : digitVal (digitChar d) = some d := by
  interval_cases d <;> rfl

theorem natRevDigits_ne_nil (n : Nat) : natRevDigits n ≠ [] := by
  rw [natRevDigits_eq]
  split <;> simp

theorem digitVal_isSome_of_mem_natRevDigits (n : Nat) :
    ∀ c ∈ natRevDigits n, (digitVal c).isSome := by
  induction n using Nat.strong_induction_on with
  | _ n ih =>
    rw [natRevDigits_eq]
    split
    · intro c hc
      simp only [List.mem_singleton] at hc
      subst hc
      rw [digitVal_digitChar _ (by omega)]
      rfl
    · intro c hc
      rcases List.mem_cons.mp hc with h1 | h2
      · subst h1
        rw [digitVal_digitChar _ (Nat.mod_lt _ (by omega))]
        rfl
      · exact ih (n / 10) (Nat.div_lt_self (by omega) (by omega)) c h2

theorem valOfDigits_append_single (l : List Char) (c : Char) :
    valOfDigits (l ++ [c]) = 10 * valOfDigits l + (digitVal c).getD 0 := by
  simp [valOfDigits, List.foldl_append]

theorem valOfDigits_natRevDigits (n : Nat) :
    valOfDigits ((natRevDigits n).reverse) = n := by
  induction n using Nat.strong_induction_on with
  | _ n ih =>
    rw [natRevDigits_eq]
    split
    · next h =>
      simp [valOfDigits, digitVal_digitChar n h]
    · next h =>
      rw [List.reverse_cons, valOfDigits_append_single,
        ih (n / 10) (Nat.div_lt_self (by omega) (by omega)),
        digitVal_digitChar _ (Nat.mod_lt _ (by omega))]
      simp
      omega

theorem parseNatDigits_natRevDigits (n : Nat) :
    parseNatDigits ((natRevDigits n).reverse) = some n := by
  have hne : (natRevDigits n).reverse ≠ [] := by
    simpa using natRevDigits_ne_nil n
  have hall : ((natRevDigits n).reverse).all (fun c => (digitVal c).isSome) = true := by
    rw [List.all_eq_true]
    intro c hc
    exact digitVal_isSome_of_mem_natRevDigits n c (List.mem_reverse.mp hc)
  rw [parseNatDigits]
  simp only [List.isEmpty_iff, hne, if_false, hall, if_true]
  rw [valOfDigits_natRevDigits]

theorem jsParseNumber_mk_digits (l : List Char) (hne : l ≠ [])
    (hall : ∀ c ∈ l, (digitVal c).isSome) :
    jsParseNumber ⟨l⟩ = (parseNatDigits l).map (fun n => (n : Int)) := by
  cases l with
  | nil => exact absurd rfl hne
  | cons c t =>
    have hc : c ≠ '-' := by
      intro h
      subst h
      have := hall '-' (by simp)
      simp [digitVal] at this
    show (if c = '-' then (parseNatDigits t).map (fun n => -(n : Int))
      else (parseNatDigits (c :: t)).map (fun n => (n : Int))) = _
    rw [if_neg hc]

theorem jsParseNumber_natStr (m : Nat) : jsParseNumber (natStr m) = some (m : Int) := by
  rw [natStr, jsParseNumber_mk_digits _ (by simpa using natRevDigits_ne_nil m)
    (fun c hc => digitVal_isSome_of_mem_natRevDigits m c (List.mem_reverse.mp hc))]
  rw [parseNatDigits_natRevDigits]
  rfl

theorem jsParseNumber_intRepr (l : Int) : jsParseNumber (intRepr l) = some l := by
  rw [intRepr]
  split
  · next h =>
    show (if ('-' : Char) = '-' then
        (parseNatDigits ((natRevDigits l.natAbs).reverse)).map (fun n => -(n : Int))
      else (parseNatDigits ('-' :: (natRevDigits l.natAbs).reverse)).map
        (fun n => (n : Int))) = some l
    rw [if_pos rfl, parseNatDigits_natRevDigits]
    show some (-(l.natAbs : Int)) = some l
    congr 1
    omega
  · next h =>
    rw [jsParseNumber_natStr]
    congr 1
    omega

theorem Year.str_beq (a b : Year) : (a.str == b.str) = decide (a = b) := by
  cases a <;> cases b <;> decide

theorem isPartialYear_str (y : Year) : isPartialYear y.str = decide (y = .FY26) := by
  cases y <;> decide

/-! ### Evaluation of the modelled array methods over encoded rows -/

theorem jsFindList_map {α : Type} (enc : α → Json) (q : α → Bool)
    (p : Json → Except JsErr Bool) (h : ∀ r, p (enc r) = .ok (q r)) :
    ∀ rows : List α, jsFindList p (rows.map enc) =
      .ok (((rows.find? q).map enc).getD .undef) := by
  intro rows
  induction rows with
  | nil => rfl
  | cons r rows ih =>
    show (do
      let b ← p (enc r)
      if b then .ok (enc r) else jsFindList p (rows.map enc)) = _
    rw [h r]
    cases hq : q r with
    | true =>
      rw [List.find?_cons_of_pos _ hq]
      rfl
    | false =>
      rw [List.find?_cons_of_neg _ (by simp [hq])]
      show jsFindList p (rows.map enc) = _
      exact ih

theorem jsSomeList_map {α : Type} (enc : α → Json) (q : α → Bool)
    (p : Json → Except JsErr Bool) (h : ∀ r, p (enc r) = .ok (q r)) :
    ∀ rows : List α, jsSomeList p (rows.map enc) = .ok (rows.any q) := by
  intro rows
  induction rows with
  | nil => rfl
  | cons r rows ih =>
    show (do
      let b ← p (enc r)
      if b then .ok true else jsSomeList p (rows.map enc)) = _
    rw [h r]
    cases hq : q r with
    | true =>
      show Except.ok true = Except.ok (List.any (r :: rows) q)
      simp [hq]
    | false =>
      show jsSomeList p (rows.map enc) = Except.ok (List.any (r :: rows) q)
      rw [ih]
      simp [hq]

theorem jsMapStrList_map {α : Type} (enc : α → Json) (g : α → String)
    (f : Json → Except JsErr String) (h : ∀ r, f (enc r) = .ok (g r)) :
    ∀ rows : List α, jsMapStrList f (rows.map enc) = .ok (rows.map g) := by
  intro rows
  induction rows with
  | nil => rfl
  | cons r rows ih =>
    show (do
      let s ← f (enc r)
      let rest ← jsMapStrList f (rows.map enc)
      Except.ok (s :: rest)) = _
    rw [h r, ih]
    rfl

/-- Index-carrying map over typed rows; the reference shape of the
`category_rank` numbered list in the theorem statements. -/
def mapWithIdx {α β : Type} (g : Nat → α → β) : Nat → List α → List β
  | _, [] => []
  | i, r :: rows => g i r :: mapWithIdx g (i + 1) rows

theorem jsMapIdxStrList_map {α : Type} (enc : α → Json) (g : Nat → α → String)
    (f : Nat → Json → Except JsErr String) (h : ∀ i r, f i (enc r) = .ok (g i r)) :
    ∀ (i : Nat) (rows : List α),
      jsMapIdxStrList f i (rows.map enc) = .ok (mapWithIdx g i rows) := by
  intro i rows
  induction rows generalizing i with
  | nil => rfl
  | cons r rows ih =>
    show (do
      let s ← f i (enc r)
      let rest ← jsMapIdxStrList f (i + 1) (rows.map enc)
      Except.ok (s :: rest)) = _
    rw [h i r, ih (i + 1)]
    rfl

theorem okBind {β γ : Type} (a : β) (f : β → Except JsErr γ) :
    (Except.ok a >>= f) = f a := rfl

theorem errBind {β γ : Type} (e : JsErr) (f : β → Except JsErr γ) :
    ((Except.error e : Except JsErr β) >>= f) = .error e := rfl

/-! ### The reference formatting rules (spec §4.2's table), used to state what
`handleIntent` computes -/

/-- year_total: `Total <year> budget: <usd>. Source: v_year_totals(<year>).`,
the amount being the year's row total ($0 when the year has no row). -/
def yearTotalMsg (y : Year) (rows : List YearTotalRow) : String :=
  "Total " ++ y.str ++ " budget: " ++
  (((rows.find? (fun r => r.fiscal_year.str == y.str)).map
    (fun r => USD (.num r.total))).getD ("$0")) ++
  ". Source: v_year_totals(" ++ y.str ++ ")."

/-- yoy_difference: delta with arrow notation over both totals. -/
def yoyDiffMsg (yf yt : Year) (rto rfrom : YoYRow) : String :=
  "Change from " ++ yf.str ++ " to " ++ yt.str ++ ": " ++
  USD (.num (rto.total - rfrom.total)) ++ " (" ++ USD (.num rfrom.total) ++
  " → " ++ USD (.num rto.total) ++ "). Source: v_year_yoy."

/-- One line of the yoy_all listing: base year as `base <total>`, later years
with a signed delta. -/
def yoyRowLine (r : YoYRow) : String :=
  match r.yoy_change with
  | none => r.fiscal_year.str ++ ": base " ++ USD (.num r.total)
  | some c =>
    r.fiscal_year.str ++ ": " ++ (if (0:Int) ≤ c then ("+") else ("−")) ++
    USD (.num (c.natAbs : Int)) ++ " (total " ++ USD (.num r.total) ++ ")"

/-- yoy_all: one line per year of the series. -/
def yoyAllMsg (rows : List YoYRow) : String :=
  "Year-over-year changes:\n- " ++ String.intercalate ("\n- ") (rows.map yoyRowLine) ++
  "\nSource: v_year_yoy."

/-- One line of the category_rank numbered list: `i. category: usd`. -/
def rankLine (i : Nat) (r : CatRow) : String :=
  natStr (i + 1) ++ ". " ++ r.category ++ ": " ++ USD (.num r.total)

/-- category_rank: numbered top-N list. -/
def rankMsg (limit : Int) (y : Year) (rows : List CatRow) : String :=
  "Top " ++ intRepr limit ++ " categories in " ++ y.str ++ ":\n" ++
  String.intercalate ("\n") (mapWithIdx rankLine 0 rows) ++
  "\nSource: v_category_totals(" ++ y.str ++ ")."

/-- category_share: amount and percentage of the year total. -/
def shareMsg (cat : String) (y : Year) (r : ShareRow) : String :=
  cat ++ " in " ++ y.str ++ ": " ++ USD (.num r.total) ++ " (" ++
  intRepr r.pct_of_year ++ "% of total). Source: v_category_shares(" ++ y.str ++ ")."

/-- line_item_total: amount for (year, category, line item). -/
def lineItemMsg (y : Year) (cat li : String) (t : Int) : String :=
  y.str ++ " " ++ cat ++ " → " ++ li ++ ": " ++ USD (.num t) ++
  ". Source: v_line_items."

/-! ### The callbacks evaluated on encoded rows -/

theorem fyPred_encodeYearTotalRow (ystr : String) (r : YearTotalRow) :
    fyPred ystr (encodeYearTotalRow r) = .ok (r.fiscal_year.str == ystr) := rfl

theorem fyPred_encodeYoYRow (ystr : String) (r : YoYRow) :
    fyPred ystr (encodeYoYRow r) = .ok (r.fiscal_year.str == ystr) := rfl

theorem catPred_encodeShareRow (cat : String) (r : ShareRow) :
    catPred cat (encodeShareRow r) = .ok (asciiUpper r.category == asciiUpper cat) := rfl

theorem rankLineFn_encodeCatRow (i : Nat) (r : CatRow) :
    rankLineFn i (encodeCatRow r) = .ok (rankLine i r) := rfl

theorem yoyLineFn_encodeYoYRow (r : YoYRow) :
    yoyLineFn (encodeYoYRow r) = .ok (yoyRowLine r) := by
  cases hc : r.yoy_change with
  | none =>
    simp only [yoyLineFn, encodeYoYRow, hc, getField, lookupField, okBind]
    simp only [yoyRowLine, hc]
    rfl
  | some c =>
    simp only [yoyLineFn, encodeYoYRow, hc, getField, lookupField, okBind]
    simp only [yoyRowLine, hc, isNullish, jsGeZero, toNumber, jsAbs, jsStr]
    by_cases h0 : (0:Int) ≤ c <;> simp [h0]

/-! ### What the resolver computes on each branch, over a successful view
layer -/

theorem handleIntent_year_total (d : OkDb) (y : Year) (pd : Option Bool) :
    handleIntent (.known (.year_total y pd)) (resolverBackend d) =
    .ok (if y = .FY26 then yearTotalMsg y d.yearTotals ++ " " ++ partialNote
         else yearTotalMsg y d.yearTotals) := by
  simp only [handleIntent, resolverBackend, jsFind,
    jsFindList_map encodeYearTotalRow (fun r => r.fiscal_year.str == y.str)
      (fyPred y.str) (fyPred_encodeYearTotalRow y.str), okBind]
  cases hf : d.yearTotals.find? (fun r => r.fiscal_year.str == y.str) with
  | none => simp [yearTotalMsg, hf, optField, USD]
  | some r => simp [yearTotalMsg, hf, optField, encodeYearTotalRow, lookupField, USD]

theorem handleIntent_yoy_difference (d : OkDb) (yf yt : Year) :
    handleIntent (.known (.yoy_difference yf yt)) (resolverBackend d) =
    (match d.yoy.find? (fun r => r.fiscal_year.str == yt.str),
           d.yoy.find? (fun r => r.fiscal_year.str == yf.str) with
     | some rto, some rfrom =>
       .ok (if yt = .FY26 ∨ yf = .FY26 then yoyDiffMsg yf yt rto rfrom ++ " " ++ partialNote
            else yoyDiffMsg yf yt rto rfrom)
     | _, _ => .ok ("I could not find the requested years.")) := by
  simp only [handleIntent, resolverBackend, jsFind,
    jsFindList_map encodeYoYRow (fun r => r.fiscal_year.str == yt.str)
      (fyPred yt.str) (fyPred_encodeYoYRow yt.str),
    jsFindList_map encodeYoYRow (fun r => r.fiscal_year.str == yf.str)
      (fyPred yf.str) (fyPred_encodeYoYRow yf.str), okBind]
  cases hto : d.yoy.find? (fun r => r.fiscal_year.str == yt.str) with
  | none =>
    cases hfrom : d.yoy.find? (fun r => r.fiscal_year.str == yf.str) with
    | none => simp [hto, hfrom, truthy]
    | some rfrom => simp [hto, hfrom, truthy, encodeYoYRow]
  | some rto =>
    cases hfrom : d.yoy.find? (fun r => r.fiscal_year.str == yf.str) with
    | none => simp [hto, hfrom, truthy, encodeYoYRow]
    | some rfrom =>
      simp [hto, hfrom, encodeYoYRow, truthy, getField, lookupField,
        yoyDiffMsg, jsSub, toNumber, USD, okBind]

theorem handleIntent_yoy_all (d : OkDb) :
    handleIntent (.known .yoy_all) (resolverBackend d) =
    .ok (if d.yoy.any (fun r => r.fiscal_year.str == "FY26")
         then yoyAllMsg d.yoy ++ "\n" ++ partialNote else yoyAllMsg d.yoy) := by
  simp only [handleIntent, resolverBackend, jsMapStr, jsSome,
    jsMapStrList_map encodeYoYRow yoyRowLine yoyLineFn yoyLineFn_encodeYoYRow,
    jsSomeList_map encodeYoYRow (fun r => r.fiscal_year.str == "FY26")
      (fyPred ("FY26")) (fyPred_encodeYoYRow ("FY26")), okBind]
  simp [yoyAllMsg]

theorem resolverBackend_category (d : OkDb) (ystr : String) (l : Int) :
    (resolverBackend d).category ystr l = Json.obj
      [("success", .bool true), ("year", .str ystr),
       ("partial", .bool (isPartialYear ystr)),
       ("data", .arr (((d.catView ystr).take l.toNat).map encodeCatRow)),
       ("message", .str ("Category rankings for " ++ ystr ++
         " retrieved successfully"))] := by
  simp [resolverBackend, categoryGET, jsParseNumber_intRepr, getCategoryRanking]

theorem handleIntent_category_rank (d : OkDb) (y : Year) (topn : Option Int) :
    handleIntent (.known (.category_rank y topn)) (resolverBackend d) =
    (if ((d.catView y.str).take ((topn.getD 10).toNat)).isEmpty then
      .ok ("No categories found for " ++ y.str ++ ".")
     else if isPartialYear y.str then
      .ok (rankMsg (topn.getD 10) y ((d.catView y.str).take ((topn.getD 10).toNat)) ++
        "\n" ++ partialNote)
     else
      .ok (rankMsg (topn.getD 10) y
        ((d.catView y.str).take ((topn.getD 10).toNat)))) := by
  have hmap := jsMapIdxStrList_map encodeCatRow rankLine rankLineFn rankLineFn_encodeCatRow 0
  simp only [handleIntent, resolverBackend_category, getField, lookupField, okBind]
  cases hr : (d.catView y.str).take ((topn.getD 10).toNat) with
  | nil => simp [hr, optField, truthy]
  | cons r rs =>
    have h2 := hmap (r :: rs)
    rw [List.map_cons] at h2
    have hne : ((rs.length : Int) + 1) ≠ 0 := by omega
    simp [hr, optField, truthy, jsMapIdxStr, h2, hne, rankMsg, okBind]
    split <;> rfl

theorem resolverBackend_shares (d : OkDb) (ystr : String) :
    (resolverBackend d).shares ystr = Json.obj
      [("success", .bool true), ("year", .str ystr),
       ("partial", .bool (isPartialYear ystr)),
       ("data", .arr ((d.sharesView ystr).map encodeShareRow)),
       ("message", .str ("Category shares for " ++ ystr ++
         " retrieved successfully"))] := by
  simp [resolverBackend, sharesGET]

theorem handleIntent_category_share (d : OkDb) (y : Year) (cat : String) :
    handleIntent (.known (.category_share y cat)) (resolverBackend d) =
    (match (d.sharesView y.str).find?
        (fun r => asciiUpper r.category == asciiUpper cat) with
     | none => .ok ("No data for " ++ cat ++ " in " ++ y.str ++ ".")
     | some r =>
       .ok (if y = .FY26 then shareMsg cat y r ++ " " ++ partialNote
            else shareMsg cat y r)) := by
  have hfind := jsFindList_map encodeShareRow
    (fun r => asciiUpper r.category == asciiUpper cat)
    (catPred cat) (catPred_encodeShareRow cat) (d.sharesView y.str)
  cases hf : (d.sharesView y.str).find?
      (fun r => asciiUpper r.category == asciiUpper cat) with
  | none =>
    rw [hf] at hfind
    simp [handleIntent, resolverBackend_shares, getField, lookupField, jsFind,
      hfind, truthy, okBind, hf]
  | some r =>
    rw [hf] at hfind
    simp [handleIntent, resolverBackend_shares, getField, lookupField, jsFind,
      hfind, truthy, encodeShareRow, shareMsg, jsStr, okBind, hf]

theorem resolverBackend_lineItem (d : OkDb) (ystr cat li : String) :
    (resolverBackend d).lineItem ystr cat li = Json.obj
      [("success", .bool true), ("year", .str ystr),
       ("category", .str cat), ("lineItem", .str li),
       ("total", .num (d.lineItemTotal ystr cat li)),
       ("formatted", .str (usdLib (d.lineItemTotal ystr cat li))),
       ("partial", .bool (isPartialYear ystr)),
       ("message", .str ("Line item total for " ++ li ++ " in " ++ cat ++
         " (" ++ ystr ++ ") retrieved successfully"))] := by
  simp [resolverBackend, lineItemGET]

theorem handleIntent_line_item (d : OkDb) (y : Year) (cat li : String) :
    handleIntent (.known (.line_item_total y cat li)) (resolverBackend d) =
    .ok (if isPartialYear y.str then
          lineItemMsg y cat li (d.lineItemTotal y.str cat li) ++ " " ++ partialNote
         else lineItemMsg y cat li (d.lineItemTotal y.str cat li)) := by
  simp [handleIntent, resolverBackend_lineItem, getField, lookupField, okBind,
    truthy, lineItemMsg]

/-! ### Substring and suffix predicates for answers -/

/-- Predicate: `pat` occurs (contiguously) inside `s`. -/
def containsStr (s pat : String) : Prop :=
  ∃ a b : List Char, s.data = a ++ pat.data ++ b

/-- Predicate: `s` ends with `t`. -/
def strEnds (s t : String) : Prop :=
  ∃ a : List Char, s.data = a ++ t.data

theorem containsStr_length_le (s pat : String) (h : containsStr s pat) :
    pat.length ≤ s.length := by
  obtain ⟨a, b, hd⟩ := h
  have h1 : s.length = s.data.length := rfl
  have h2 : pat.length = pat.data.length := rfl
  rw [h1, h2, hd]
  simp
  omega

theorem not_containsStr_of_short (s pat : String) (h : s.length < pat.length) :
    ¬ containsStr s pat :=
  fun hc => absurd (containsStr_length_le s pat hc) (by omega)

theorem strEnds_append (a t : String) : strEnds (a ++ t) t :=
  ⟨a.data, by simp [String.data_append]⟩

theorem strEnds_lastData (s t : String) (k : Nat) (hk : k ≤ t.length)
    (h : strEnds s t) : s.data.reverse.take k = t.data.reverse.take k := by
  obtain ⟨a, hd⟩ := h
  rw [hd, List.reverse_append, List.take_append_of_le_length (by simpa using hk)]

theorem not_strEnds_of_mismatch (s t u : String) (k : Nat)
    (h : strEnds s t) (hk1 : k ≤ t.length) (hk2 : k ≤ u.length)
    (hne : t.data.reverse.take k ≠ u.data.reverse.take k) : ¬ strEnds s u :=
  fun hu => hne (by
    rw [← strEnds_lastData s t k hk1 h, strEnds_lastData s u k hk2 hu])

/-! ### Structural facts about the answer templates -/

theorem yearTotalMsg_cites (y : Year) (rows : List YearTotalRow) :
    containsStr (yearTotalMsg y rows) "Source: " := by
  refine ⟨("Total " ++ y.str ++ " budget: " ++
    (((rows.find? (fun r => r.fiscal_year.str == y.str)).map
      (fun r => USD (.num r.total))).getD ("$0")) ++ ". ").data,
    ("v_year_totals(" ++ y.str ++ ").").data, ?_⟩
  simp [yearTotalMsg, String.data_append]

theorem yoyDiffMsg_cites (yf yt : Year) (rto rfrom : YoYRow) :
    containsStr (yoyDiffMsg yf yt rto rfrom) "Source: " := by
  refine ⟨("Change from " ++ yf.str ++ " to " ++ yt.str ++ ": " ++
    USD (.num (rto.total - rfrom.total)) ++ " (" ++ USD (.num rfrom.total) ++
    " → " ++ USD (.num rto.total) ++ "). ").data, ("v_year_yoy.").data, ?_⟩
  simp [yoyDiffMsg, String.data_append]

theorem yoyAllMsg_cites (rows : List YoYRow) :
    containsStr (yoyAllMsg rows) "Source: " := by
  refine ⟨("Year-over-year changes:\n- " ++
    String.intercalate ("\n- ") (rows.map yoyRowLine) ++ "\n").data,
    ("v_year_yoy.").data, ?_⟩
  simp [yoyAllMsg, String.data_append]

theorem rankMsg_cites (limit : Int) (y : Year) (rows : List CatRow) :
    containsStr (rankMsg limit y rows) "Source: " := by
  refine ⟨("Top " ++ intRepr limit ++ " categories in " ++ y.str ++ ":\n" ++
    String.intercalate ("\n") (mapWithIdx rankLine 0 rows) ++ "\n").data,
    ("v_category_totals(" ++ y.str ++ ").").data, ?_⟩
  simp [rankMsg, String.data_append]

theorem shareMsg_cites (cat : String) (y : Year) (r : ShareRow) :
    containsStr (shareMsg cat y r) "Source: " := by
  refine ⟨(cat ++ " in " ++ y.str ++ ": " ++ USD (.num r.total) ++ " (" ++
    intRepr r.pct_of_year ++ "% of total). ").data,
    ("v_category_shares(" ++ y.str ++ ").").data, ?_⟩
  simp [shareMsg, String.data_append]

theorem lineItemMsg_cites (y : Year) (cat li : String) (t : Int) :
    containsStr (lineItemMsg y cat li t) "Source: " := by
  refine ⟨(y.str ++ " " ++ cat ++ " → " ++ li ++ ": " ++ USD (.num t) ++ ". ").data,
    ("v_line_items.").data, ?_⟩
  simp [lineItemMsg, String.data_append]

theorem containsStr_append_right (s t pat : String) (h : containsStr s pat) :
    containsStr (s ++ t) pat := by
  obtain ⟨a, b, hd⟩ := h
  exact ⟨a, b ++ t.data, by rw [String.data_append, hd]; simp⟩

theorem yearTotalMsg_ends (y : Year) (rows : List YearTotalRow) :
    strEnds (yearTotalMsg y rows) (y.str ++ ").") := by
  refine ⟨("Total " ++ y.str ++ " budget: " ++
    (((rows.find? (fun r => r.fiscal_year.str == y.str)).map
      (fun r => USD (.num r.total))).getD ("$0")) ++
    ". Source: v_year_totals(").data, ?_⟩
  simp [yearTotalMsg, String.data_append]

theorem yoyDiffMsg_ends (yf yt : Year) (rto rfrom : YoYRow) :
    strEnds (yoyDiffMsg yf yt rto rfrom) "). Source: v_year_yoy." := by
  refine ⟨("Change from " ++ yf.str ++ " to " ++ yt.str ++ ": " ++
    USD (.num (rto.total - rfrom.total)) ++ " (" ++ USD (.num rfrom.total) ++
    " → " ++ USD (.num rto.total)).data, ?_⟩
  simp [yoyDiffMsg, String.data_append]

theorem yoyAllMsg_ends (rows : List YoYRow) :
    strEnds (yoyAllMsg rows) "Source: v_year_yoy." := by
  refine ⟨("Year-over-year changes:\n- " ++
    String.intercalate ("\n- ") (rows.map yoyRowLine) ++ "\n").data, ?_⟩
  simp [yoyAllMsg, String.data_append]

theorem rankMsg_ends (limit : Int) (y : Year) (rows : List CatRow) :
    strEnds (rankMsg limit y rows) (y.str ++ ").") := by
  refine ⟨("Top " ++ intRepr limit ++ " categories in " ++ y.str ++ ":\n" ++
    String.intercalate ("\n") (mapWithIdx rankLine 0 rows) ++
    "\nSource: v_category_totals(").data, ?_⟩
  simp [rankMsg, String.data_append]

theorem shareMsg_ends (cat : String) (y : Year) (r : ShareRow) :
    strEnds (shareMsg cat y r) (y.str ++ ").") := by
  refine ⟨(cat ++ " in " ++ y.str ++ ": " ++ USD (.num r.total) ++ " (" ++
    intRepr r.pct_of_year ++ "% of total). Source: v_category_shares(").data, ?_⟩
  simp [shareMsg, String.data_append]

theorem lineItemMsg_ends (y : Year) (cat li : String) (t : Int) :
    strEnds (lineItemMsg y cat li t) ". Source: v_line_items." := by
  refine ⟨(y.str ++ " " ++ cat ++ " → " ++ li ++ ": " ++ USD (.num t)).data, ?_⟩
  simp [lineItemMsg, String.data_append]

/-- None of the per-year closing fragments of the data answers match the tail
of the partial note, so an answer not built with the note never ends in it. -/
theorem not_note_yearTail (s : String) (y : Year) (h : strEnds s (y.str ++ ").")) :
    ¬ strEnds s partialNote := by
  cases y
  · exact not_strEnds_of_mismatch s _ partialNote 6 h (by decide) (by decide) (by decide)
  · exact not_strEnds_of_mismatch s _ partialNote 6 h (by decide) (by decide) (by decide)
  · exact not_strEnds_of_mismatch s _ partialNote 6 h (by decide) (by decide) (by decide)

theorem not_note_of_tail6 (s t : String) (h : strEnds s t) (h1 : 6 ≤ t.length)
    (hne : t.data.reverse.take 6 ≠ partialNote.data.reverse.take 6) :
    ¬ strEnds s partialNote :=
  not_strEnds_of_mismatch s t partialNote 6 h h1 (by decide) hne

/-- The shared shape of the "no data" / "no categories" messages: they close
with `<year>.`, whose tail differs from the partial note's. -/
theorem not_note_yearDotTail (s : String) (y : Year) (h : strEnds s (y.str ++ ".")) :
    ¬ strEnds s partialNote := by
  cases y
  · exact not_strEnds_of_mismatch s _ partialNote 5 h (by decide) (by decide) (by decide)
  · exact not_strEnds_of_mismatch s _ partialNote 5 h (by decide) (by decide) (by decide)
  · exact not_strEnds_of_mismatch s _ partialNote 5 h (by decide) (by decide) (by decide)

theorem noCategoriesMsg_ends (y : Year) :
    strEnds ("No categories found for " ++ y.str ++ ".") (y.str ++ ".") :=
  ⟨("No categories found for ").data, by simp [String.data_append]⟩

theorem noDataMsg_ends (cat : String) (y : Year) :
    strEnds ("No data for " ++ cat ++ " in " ++ y.str ++ ".") (y.str ++ ".") :=
  ⟨("No data for " ++ cat ++ " in ").data, by simp [String.data_append]⟩

theorem strEnds_refl (s : String) : strEnds s s := ⟨[], by simp⟩

/-! ### A concrete snapshot of the views (the dataset of tests/budget.spec.ts;
the FY25 share percentage is rounded to an integer for the integral model) -/

def demoDb : OkDb where
  yearTotals := [⟨.FY24, 5391635⟩, ⟨.FY25, 6894068⟩, ⟨.FY26, 2721944⟩]
  yoy := [⟨.FY24, 5391635, none⟩, ⟨.FY25, 6894068, some 1502433⟩,
          ⟨.FY26, 2721944, some (-4172124)⟩]
  catView := fun y =>
    if y = "FY25" then [⟨"TAXES", 1481200⟩, ⟨"POLICE DEPARTMENT", 1249212⟩] else []
  sharesView := fun y => if y = "FY25" then [⟨"TAXES", 1481200, 21⟩] else []
  lineItemTotal := fun y c li =>
    if y = "FY24" ∧ c = "ADMINISTRATION" ∧ li = "Payroll Taxes" then 20389 else 0

/-! ### Grouping never loses digits -/

theorem natRevDigits_ne_comma (n : Nat) : ∀ c ∈ natRevDigits n, c ≠ ',' := by
  intro c hc
  have hs := digitVal_isSome_of_mem_natRevDigits n c hc
  intro h
  subst h
  simp [digitVal] at hs

theorem group3_filter_comma : ∀ (n : Nat) (ds : List Char), ds.length = n →
    (∀ c ∈ ds, c ≠ ',') → (group3 ds).filter (fun c => c != ',') = ds := by
  intro n
  induction n using Nat.strong_induction_on with
  | _ n ih =>
    intro ds hlen h
    rw [group3_eq]
    split
    · exact List.filter_eq_self.mpr (fun c hc => by simpa using h c hc)
    · next hgt =>
      rw [List.filter_append]
      have h1 : (ds.take 3).filter (fun c => c != ',') = ds.take 3 :=
        List.filter_eq_self.mpr
          (fun c hc => by simpa using h c (List.mem_of_mem_take hc))
      have h2 : ((',' :: group3 (ds.drop 3)).filter (fun c => c != ',')) =
          (group3 (ds.drop 3)).filter (fun c => c != ',') := by simp
      rw [h1, h2, ih (ds.length - 3) (by omega) (ds.drop 3)
        (by simp [List.length_drop]) (fun c hc => h c (List.mem_of_mem_drop hc))]
      exact List.take_append_drop 3 ds

/-- C5: the currency formatter `USD` renders every number as a dollar-prefixed
locale string with thousands separators (removing the separators recovers
exactly the decimal digits), and renders null, undefined and NaN amounts as
`$0`. -/
theorem C5_currency_formatter :
    (∀ n : Int, USD (.num n) = "$" ++ intGrouped n) ∧
    (∀ n : Nat, (group3 (natRevDigits n)).filter (fun c => c != ',') = natRevDigits n) ∧
    USD .null = "$0" ∧ USD .undef = "$0" ∧ USD .nan = "$0" ∧
    USD (.num 1234567) = "$1,234,567" ∧ USD (.num 1000) = "$1,000" ∧
    USD (.num 999) = "$999" ∧ USD (.num (-4172124)) = "$-4,172,124" :=
  ⟨fun _ => rfl,
   fun n => group3_filter_comma (natRevDigits n).length (natRevDigits n) rfl
     (natRevDigits_ne_comma n),
   rfl, rfl, rfl, by decide, by decide, by decide, by decide⟩

/-- C8: the category year-over-year route answers an omitted `category`
parameter with HTTP 400 and the `{success:false, error}` body carrying the
missing-parameter message, whatever the other parameters and the state of the
query layer are (in particular it cannot crash: the query is never consulted). -/
theorem C8_category_yoy_missing_param (y1p y2p : Option String) (q : Except Thrown Json) :
    categoryYoyGET y1p y2p none q =
    ⟨400, .obj [("success", .bool false),
                ("error", .str ("Category parameter is required"))]⟩ := rfl

/-- C9: on a throwing query, every budget route returns HTTP 500 with the
`{success:false, error, details}` envelope, `details` carrying the thrown
`Error`'s message (and the fixed fallback text for non-`Error` throws); no
other status or body shape is produced on internal failure. -/
theorem C9_internal_failure_envelope (t : Thrown) (c : String) (hc : c ≠ "") :
    yearTotalsGET (.error t) = ⟨500, errBody ("Failed to fetch year totals") t⟩ ∧
    yoyGET (.error t) = ⟨500, errBody ("Failed to fetch year-over-year data") t⟩ ∧
    (∀ yp lp, categoryGET yp lp (fun _ => .error t) =
      ⟨500, errBody ("Failed to fetch category rankings") t⟩) ∧
    (∀ yp, sharesGET yp (fun _ => .error t) =
      ⟨500, errBody ("Failed to fetch category shares") t⟩) ∧
    (∀ yp cp lip, lineItemGET yp cp lip (fun _ _ _ => .error t) =
      ⟨500, errBody ("Failed to fetch line item total") t⟩) ∧
    (∀ y1p y2p, categoryYoyGET y1p y2p (some c) (.error t) =
      ⟨500, errBody ("Failed to fetch category year-over-year data") t⟩) ∧
    (∀ msg t2, errBody msg t2 =
      .obj [("success", .bool false), ("error", .str msg),
            ("details", .str (thrownDetails t2))]) ∧
    (∀ m, thrownDetails (.errObj m) = m) := by
  refine ⟨rfl, rfl, fun yp lp => rfl, fun yp => rfl, fun yp cp lip => rfl,
    fun y1p y2p => ?_, fun msg t2 => rfl, fun m => rfl⟩
  simp [categoryYoyGET, hc]

theorem C9_witness :
    ("POLICE DEPARTMENT" : String) ≠ "" ∧
    categoryYoyGET (some ("FY24")) (some ("FY25")) (some ("POLICE DEPARTMENT"))
      (.error (.errObj ("connection refused"))) =
      ⟨500, errBody ("Failed to fetch category year-over-year data")
        (.errObj ("connection refused"))⟩ :=
  ⟨by decide,
   (C9_internal_failure_envelope (.errObj ("connection refused"))
     "POLICE DEPARTMENT" (by decide)).2.2.2.2.2.1 (some ("FY24")) (some ("FY25"))⟩

/-- C10: `handleIntent` is total over runtime intent values: any value whose
action tag is not one of the seven known variants falls to the `default` arm
and yields the fixed fallback answer, whatever the backend responds. -/
theorem C10_unknown_action_fallback (a : String) (b : Backend)
    (_h : a ∉ knownActions) :
    IntentV.actionTag (.unknown a) = a ∧
    handleIntent (.unknown a) b = .ok fallbackAnswer ∧
    fallbackAnswer = "Sorry, I could not interpret that request." :=
  ⟨rfl, rfl, rfl⟩

theorem C10_witness :
    ("scenario_planning" : String) ∉ knownActions ∧
    handleIntent (.unknown ("scenario_planning")) (resolverBackend demoDb) =
      .ok ("Sorry, I could not interpret that request.") := by
  refine ⟨by decide, ?_⟩
  rw [(C10_unknown_action_fallback ("scenario_planning") (resolverBackend demoDb)
    (by decide)).2.1]
  rfl

/-- C4: the yoy_difference resolver locates the series rows of both years;
if either is missing it answers the fixed not-found message, and otherwise it
reports the delta `to.total - from.total` in arrow notation over both totals
(with the partial note exactly when either year is FY26). -/
theorem C4_yoy_difference (d : OkDb) (yf yt : Year) :
    ((d.yoy.find? (fun r => r.fiscal_year.str == yt.str) = none ∨
      d.yoy.find? (fun r => r.fiscal_year.str == yf.str) = none) →
      handleIntent (.known (.yoy_difference yf yt)) (resolverBackend d) =
        .ok ("I could not find the requested years.")) ∧
    (∀ rto rfrom,
      d.yoy.find? (fun r => r.fiscal_year.str == yt.str) = some rto →
      d.yoy.find? (fun r => r.fiscal_year.str == yf.str) = some rfrom →
      handleIntent (.known (.yoy_difference yf yt)) (resolverBackend d) =
        .ok (if yt = .FY26 ∨ yf = .FY26
             then yoyDiffMsg yf yt rto rfrom ++ " " ++ partialNote
             else yoyDiffMsg yf yt rto rfrom) ∧
      yoyDiffMsg yf yt rto rfrom =
        "Change from " ++ yf.str ++ " to " ++ yt.str ++ ": " ++
        USD (.num (rto.total - rfrom.total)) ++ " (" ++ USD (.num rfrom.total) ++
        " → " ++ USD (.num rto.total) ++ "). Source: v_year_yoy.") := by
  constructor
  · intro hmiss
    rw [handleIntent_yoy_difference]
    rcases hmiss with hm | hm
    · rw [hm]
    · rw [hm]
      cases d.yoy.find? (fun r => r.fiscal_year.str == yt.str) <;> rfl
  · intro rto rfrom hto hfrom
    rw [handleIntent_yoy_difference, hto, hfrom]
    exact ⟨rfl, rfl⟩

theorem C4_witness :
    demoDb.yoy.find? (fun r => r.fiscal_year.str == Year.str .FY25) =
      some ⟨.FY25, 6894068, some 1502433⟩ ∧
    demoDb.yoy.find? (fun r => r.fiscal_year.str == Year.str .FY24) =
      some ⟨.FY24, 5391635, none⟩ ∧
    handleIntent (.known (.yoy_difference .FY24 .FY25)) (resolverBackend demoDb) =
      .ok ("Change from FY24 to FY25: $1,502,433 ($5,391,635 → $6,894,068). Source: v_year_yoy.") := by
  refine ⟨rfl, rfl, ?_⟩
  rw [((C4_yoy_difference demoDb .FY24 .FY25).2
    ⟨.FY25, 6894068, some 1502433⟩ ⟨.FY24, 5391635, none⟩ rfl rfl).1]
  rfl

/-- C3 counterexample: fed the year-totals route's actual JSON response (the
`{success, data, message}` envelope the handler in
app/api/budget/year-totals/route.ts builds), the resolver's year_total branch
does not return the formatted total — it calls `.find` on the envelope object
and throws a `TypeError`. -/
theorem C3_counterexample :
    handleIntent (.known (.year_total .FY25 none)) (routeBackend demoDb) =
      .error .typeError ∧
    ∀ s : String,
      handleIntent (.known (.year_total .FY25 none)) (routeBackend demoDb) ≠ .ok s := by
  constructor
  · rfl
  · intro s h
    have h0 : handleIntent (.known (.year_total .FY25 none)) (routeBackend demoDb) =
        .error .typeError := rfl
    rw [h0] at h
    exact Except.noConfusion h

/-- C3 amended: given the year-totals rows themselves (the `data` array of the
endpoint's envelope) as the parsed body, the resolver answers
`Total <y> budget: <usd>. Source: v_year_totals(<y>).` with the currency-
formatted total of the year's row, the partial note appended exactly when the
year is FY26. -/
theorem C3_year_total_amended (d : OkDb) (y : Year) (pd : Option Bool)
    (row : YearTotalRow)
    (h : d.yearTotals.find? (fun r => r.fiscal_year.str == y.str) = some row) :
    handleIntent (.known (.year_total y pd)) (resolverBackend d) =
    .ok (if y = .FY26
         then ("Total ") ++ y.str ++ " budget: " ++ USD (.num row.total) ++
           ". Source: v_year_totals(" ++ y.str ++ ")." ++ " " ++ partialNote
         else ("Total ") ++ y.str ++ " budget: " ++ USD (.num row.total) ++
           ". Source: v_year_totals(" ++ y.str ++ ").") := by
  rw [handleIntent_year_total]
  simp only [yearTotalMsg, h]
  rfl

theorem C3_witness :
    demoDb.yearTotals.find? (fun r => r.fiscal_year.str == Year.str .FY25) =
      some ⟨.FY25, 6894068⟩ ∧
    handleIntent (.known (.year_total .FY25 none)) (resolverBackend demoDb) =
      .ok ("Total FY25 budget: $6,894,068. Source: v_year_totals(FY25).") := by
  refine ⟨rfl, ?_⟩
  rw [C3_year_total_amended demoDb .FY25 none ⟨.FY25, 6894068⟩ rfl]
  rfl

/-- C6: the ranking the category_rank branch renders is the per-year view
limited to the top N rows with N = top_n ?? 10; a non-empty result becomes the
numbered `i. category: usd` list, an empty one the no-categories message. -/
theorem C6_category_rank (d : OkDb) (y : Year) (topn : Option Int) :
    (topn = none → topn.getD 10 = 10) ∧
    (((d.catView y.str).take ((topn.getD 10).toNat)).isEmpty →
      handleIntent (.known (.category_rank y topn)) (resolverBackend d) =
        .ok ("No categories found for " ++ y.str ++ ".")) ∧
    (¬ ((d.catView y.str).take ((topn.getD 10).toNat)).isEmpty →
      handleIntent (.known (.category_rank y topn)) (resolverBackend d) =
        .ok (if isPartialYear y.str
             then rankMsg (topn.getD 10) y
                ((d.catView y.str).take ((topn.getD 10).toNat)) ++ "\n" ++ partialNote
             else rankMsg (topn.getD 10) y
                ((d.catView y.str).take ((topn.getD 10).toNat))) ∧
      rankMsg (topn.getD 10) y ((d.catView y.str).take ((topn.getD 10).toNat)) =
        "Top " ++ intRepr (topn.getD 10) ++ " categories in " ++ y.str ++ ":\n" ++
        String.intercalate ("\n")
          (mapWithIdx rankLine 0 ((d.catView y.str).take ((topn.getD 10).toNat))) ++
        "\nSource: v_category_totals(" ++ y.str ++ ")." ∧
      (∀ i r, rankLine i r =
        natStr (i + 1) ++ ". " ++ r.category ++ ": " ++ USD (.num r.total))) := by
  refine ⟨?_, ?_, ?_⟩
  · intro he
    rw [he]
    rfl
  · intro he
    rw [handleIntent_category_rank, if_pos he]
  · intro hne
    rw [handleIntent_category_rank, if_neg hne]
    exact ⟨by split <;> rfl, rfl, fun i r => rfl⟩

theorem C6_witness :
    ¬ ((demoDb.catView (Year.str .FY25)).take (((some (2:Int)).getD 10).toNat)).isEmpty ∧
    (none : Option Int).getD 10 = 10 ∧
    handleIntent (.known (.category_rank .FY25 (some 2))) (resolverBackend demoDb) =
      .ok ("Top 2 categories in FY25:\n1. TAXES: $1,481,200\n2. POLICE DEPARTMENT: $1,249,212\nSource: v_category_totals(FY25).") := by
  refine ⟨by decide, (C6_category_rank demoDb .FY25 none).1 rfl, ?_⟩
  rw [((C6_category_rank demoDb .FY25 (some 2)).2.2 (by decide)).1]
  rfl

/-- C7: the category_share branch matches the requested category against the
share rows by case-insensitive exact comparison; with no match it answers the
no-data message, and with a match it reports the row's dollar amount and its
percentage of the year total. -/
theorem C7_category_share (d : OkDb) (y : Year) (cat : String) :
    ((d.sharesView y.str).find?
        (fun r => asciiUpper r.category == asciiUpper cat) = none →
      handleIntent (.known (.category_share y cat)) (resolverBackend d) =
        .ok ("No data for " ++ cat ++ " in " ++ y.str ++ ".")) ∧
    (∀ r, (d.sharesView y.str).find?
        (fun r2 => asciiUpper r2.category == asciiUpper cat) = some r →
      handleIntent (.known (.category_share y cat)) (resolverBackend d) =
        .ok (if y = .FY26 then shareMsg cat y r ++ " " ++ partialNote
             else shareMsg cat y r) ∧
      shareMsg cat y r =
        cat ++ " in " ++ y.str ++ ": " ++ USD (.num r.total) ++ " (" ++
        intRepr r.pct_of_year ++ "% of total). Source: v_category_shares(" ++
        y.str ++ ").") := by
  constructor
  · intro hnone
    rw [handleIntent_category_share, hnone]
  · intro r hr
    rw [handleIntent_category_share, hr]
    exact ⟨rfl, rfl⟩

theorem C7_witness :
    (demoDb.sharesView (Year.str .FY25)).find?
      (fun r => asciiUpper r.category == asciiUpper ("taxes")) =
      some ⟨"TAXES", 1481200, 21⟩ ∧
    handleIntent (.known (.category_share .FY25 ("taxes"))) (resolverBackend demoDb) =
      .ok ("taxes in FY25: $1,481,200 (21% of total). Source: v_category_shares(FY25).") := by
  refine ⟨rfl, ?_⟩
  rw [((C7_category_share demoDb .FY25 ("taxes")).2 ⟨"TAXES", 1481200, 21⟩ rfl).1]
  rfl

/-- C1 counterexample: the help intent passes the provided text through
verbatim — its answer carries no `Source: <view>.` citation, contradicting
the claim that every intent's answer (help included) cites a view. -/
theorem C1_counterexample :
    handleIntent (.known (.help ("hi"))) (resolverBackend demoDb) = .ok ("hi") ∧
    ¬ containsStr ("hi") "Source: " :=
  ⟨rfl, not_containsStr_of_short _ _ (by decide)⟩

/-- C1 amended: every data-bearing answer of the resolver contains a
`Source: ` citation of its view; the help passthrough, the unknown-intent
fallback, and the not-found / no-data early returns are the only answers
without one, and those are fixed messages (help echoing the question). -/
theorem C1_source_citations (d : OkDb) :
    (∀ y pd, ∃ s,
      handleIntent (.known (.year_total y pd)) (resolverBackend d) = .ok s ∧
      containsStr s ("Source: ")) ∧
    (∀ yf yt,
      (∃ s, handleIntent (.known (.yoy_difference yf yt)) (resolverBackend d) =
        .ok s ∧ containsStr s ("Source: ")) ∨
      handleIntent (.known (.yoy_difference yf yt)) (resolverBackend d) =
        .ok ("I could not find the requested years.")) ∧
    (∃ s, handleIntent (.known .yoy_all) (resolverBackend d) = .ok s ∧
      containsStr s ("Source: ")) ∧
    (∀ y tn,
      (∃ s, handleIntent (.known (.category_rank y tn)) (resolverBackend d) =
        .ok s ∧ containsStr s ("Source: ")) ∨
      handleIntent (.known (.category_rank y tn)) (resolverBackend d) =
        .ok ("No categories found for " ++ y.str ++ ".")) ∧
    (∀ y c,
      (∃ s, handleIntent (.known (.category_share y c)) (resolverBackend d) =
        .ok s ∧ containsStr s ("Source: ")) ∨
      handleIntent (.known (.category_share y c)) (resolverBackend d) =
        .ok ("No data for " ++ c ++ " in " ++ y.str ++ ".")) ∧
    (∀ y c li, ∃ s,
      handleIntent (.known (.line_item_total y c li)) (resolverBackend d) =
        .ok s ∧ containsStr s ("Source: ")) ∧
    (∀ q, handleIntent (.known (.help q)) (resolverBackend d) = .ok q) ∧
    (∀ (a : String) (b : Backend), handleIntent (.unknown a) b = .ok fallbackAnswer) := by
  refine ⟨?_, ?_, ?_, ?_, ?_, ?_, fun q => rfl, fun a b => rfl⟩
  · intro y pd
    refine ⟨_, handleIntent_year_total d y pd, ?_⟩
    by_cases hy : y = .FY26
    · rw [if_pos hy]
      exact containsStr_append_right _ _ _
        (containsStr_append_right _ _ _ (yearTotalMsg_cites y d.yearTotals))
    · rw [if_neg hy]
      exact yearTotalMsg_cites y d.yearTotals
  · intro yf yt
    rw [handleIntent_yoy_difference]
    cases hto : d.yoy.find? (fun r => r.fiscal_year.str == yt.str) with
    | none =>
      right
      cases d.yoy.find? (fun r => r.fiscal_year.str == yf.str) <;> rfl
    | some rto =>
      cases hfrom : d.yoy.find? (fun r => r.fiscal_year.str == yf.str) with
      | none => right; rfl
      | some rfrom =>
        left
        refine ⟨_, rfl, ?_⟩
        by_cases h26 : yt = .FY26 ∨ yf = .FY26
        · rw [if_pos h26]
          exact containsStr_append_right _ _ _
            (containsStr_append_right _ _ _ (yoyDiffMsg_cites yf yt rto rfrom))
        · rw [if_neg h26]
          exact yoyDiffMsg_cites yf yt rto rfrom
  · refine ⟨_, handleIntent_yoy_all d, ?_⟩
    by_cases ha : d.yoy.any (fun r => r.fiscal_year.str == "FY26") = true
    · rw [if_pos ha]
      exact containsStr_append_right _ _ _
        (containsStr_append_right _ _ _ (yoyAllMsg_cites d.yoy))
    · rw [if_neg ha]
      exact yoyAllMsg_cites d.yoy
  · intro y tn
    rw [handleIntent_category_rank]
    by_cases he : ((d.catView y.str).take ((tn.getD 10).toNat)).isEmpty
    · right
      rw [if_pos he]
    · left
      rw [if_neg he]
      by_cases hp : isPartialYear y.str = true
      · rw [if_pos hp]
        exact ⟨_, rfl, containsStr_append_right _ _ _
          (containsStr_append_right _ _ _ (rankMsg_cites _ y _))⟩
      · rw [if_neg hp]
        exact ⟨_, rfl, rankMsg_cites _ y _⟩
  · intro y c
    rw [handleIntent_category_share]
    cases hf : (d.sharesView y.str).find?
        (fun r => asciiUpper r.category == asciiUpper c) with
    | none => right; rfl
    | some r =>
      left
      refine ⟨_, rfl, ?_⟩
      by_cases hy : y = .FY26
      · rw [if_pos hy]
        exact containsStr_append_right _ _ _
          (containsStr_append_right _ _ _ (shareMsg_cites c y r))
      · rw [if_neg hy]
        exact shareMsg_cites c y r
  · intro y c li
    refine ⟨_, handleIntent_line_item d y c li, ?_⟩
    by_cases hp : isPartialYear y.str = true
    · rw [if_pos hp]
      exact containsStr_append_right _ _ _
        (containsStr_append_right _ _ _ (lineItemMsg_cites y c li _))
    · rw [if_neg hp]
      exact lineItemMsg_cites y c li _

/-- C2 counterexample: a category_share query for FY26 — the partial year —
whose category has no row answers the no-data message WITHOUT the partial
note: the disclosure is skipped by the no-data early return, so the note is
not equivalent to the partial-year predicate of the queried year. -/
theorem C2_counterexample :
    handleIntent (.known (.category_share .FY26 ("PARKS"))) (resolverBackend demoDb) =
      .ok ("No data for PARKS in FY26.") ∧
    isPartialYear (Year.str .FY26) = true ∧
    ¬ strEnds ("No data for PARKS in FY26.") partialNote ∧
    ¬ containsStr ("No data for PARKS in FY26.") partialNote :=
  ⟨rfl, rfl,
   not_strEnds_of_mismatch _ _ partialNote 5 (strEnds_refl _) (by decide) (by decide)
     (by decide),
   not_containsStr_of_short _ _ (by decide)⟩

/-- C2 amended: over successful view responses, the partial note is appended
exactly when the partial-year predicate holds of the queried year (for
yoy_all: when the FY26 row occurs in the series) — EXCEPT on the not-found /
no-data early returns, which never carry the note (see the counterexample);
help passes its text through and the fallback is a fixed string, neither
appending a note. -/
theorem C2_partial_note (d : OkDb) :
    (∀ y pd s, handleIntent (.known (.year_total y pd)) (resolverBackend d) = .ok s →
      (strEnds s partialNote ↔ y = .FY26)) ∧
    (∀ yf yt rto rfrom s,
      d.yoy.find? (fun r => r.fiscal_year.str == yt.str) = some rto →
      d.yoy.find? (fun r => r.fiscal_year.str == yf.str) = some rfrom →
      handleIntent (.known (.yoy_difference yf yt)) (resolverBackend d) = .ok s →
      (strEnds s partialNote ↔ (yt = .FY26 ∨ yf = .FY26))) ∧
    (∀ s, handleIntent (.known .yoy_all) (resolverBackend d) = .ok s →
      (strEnds s partialNote ↔
        d.yoy.any (fun r => r.fiscal_year.str == "FY26") = true)) ∧
    (∀ y tn s, ¬ ((d.catView y.str).take ((tn.getD 10).toNat)).isEmpty →
      handleIntent (.known (.category_rank y tn)) (resolverBackend d) = .ok s →
      (strEnds s partialNote ↔ y = .FY26)) ∧
    (∀ y c r s,
      (d.sharesView y.str).find?
        (fun r2 => asciiUpper r2.category == asciiUpper c) = some r →
      handleIntent (.known (.category_share y c)) (resolverBackend d) = .ok s →
      (strEnds s partialNote ↔ y = .FY26)) ∧
    (∀ y c li s,
      handleIntent (.known (.line_item_total y c li)) (resolverBackend d) = .ok s →
      (strEnds s partialNote ↔ y = .FY26)) ∧
    (∀ q, handleIntent (.known (.help q)) (resolverBackend d) = .ok q) ∧
    (∀ (a : String) (b : Backend), handleIntent (.unknown a) b = .ok fallbackAnswer) := by
  refine ⟨?_, ?_, ?_, ?_, ?_, ?_, fun q => rfl, fun a b => rfl⟩
  · intro y pd s h
    rw [handleIntent_year_total] at h
    injection h with hs
    subst hs
    by_cases hy : y = .FY26
    · rw [if_pos hy]
      exact ⟨fun _ => hy, fun _ => strEnds_append _ _⟩
    · rw [if_neg hy]
      exact ⟨fun hn => absurd hn (not_note_yearTail _ y (yearTotalMsg_ends y _)),
        fun h2 => absurd h2 hy⟩
  · intro yf yt rto rfrom s hto hfrom h
    rw [handleIntent_yoy_difference, hto, hfrom] at h
    injection h with hs
    subst hs
    by_cases h26 : yt = .FY26 ∨ yf = .FY26
    · rw [if_pos h26]
      exact ⟨fun _ => h26, fun _ => strEnds_append _ _⟩
    · rw [if_neg h26]
      refine ⟨fun hn => absurd hn ?_, fun h2 => absurd h2 h26⟩
      exact not_note_of_tail6 _ _ (yoyDiffMsg_ends yf yt rto rfrom)
        (by decide) (by decide)
  · intro s h
    rw [handleIntent_yoy_all] at h
    injection h with hs
    subst hs
    by_cases ha : d.yoy.any (fun r => r.fiscal_year.str == "FY26") = true
    · rw [if_pos ha]
      exact ⟨fun _ => ha, fun _ => strEnds_append _ _⟩
    · rw [if_neg ha]
      refine ⟨fun hn => absurd hn ?_, fun h2 => absurd h2 ha⟩
      exact not_note_of_tail6 _ _ (yoyAllMsg_ends d.yoy) (by decide) (by decide)
  · intro y tn s hne h
    rw [handleIntent_category_rank, if_neg hne] at h
    by_cases hy : y = .FY26
    · have hp : isPartialYear y.str = true := by
        rw [isPartialYear_str]
        simp [hy]
      rw [if_pos hp] at h
      injection h with hs
      subst hs
      exact ⟨fun _ => hy, fun _ => strEnds_append _ _⟩
    · have hp : ¬ isPartialYear y.str = true := by
        rw [isPartialYear_str]
        simp [hy]
      rw [if_neg hp] at h
      injection h with hs
      subst hs
      exact ⟨fun hn => absurd hn (not_note_yearTail _ y (rankMsg_ends _ y _)),
        fun h2 => absurd h2 hy⟩
  · intro y c r s hr h
    rw [handleIntent_category_share, hr] at h
    injection h with hs
    subst hs
    by_cases hy : y = .FY26
    · rw [if_pos hy]
      exact ⟨fun _ => hy, fun _ => strEnds_append _ _⟩
    · rw [if_neg hy]
      exact ⟨fun hn => absurd hn (not_note_yearTail _ y (shareMsg_ends c y r)),
        fun h2 => absurd h2 hy⟩
  · intro y c li s h
    rw [handleIntent_line_item] at h
    injection h with hs
    subst hs
    by_cases hy : y = .FY26
    · have hp : isPartialYear y.str = true := by
        rw [isPartialYear_str]
        simp [hy]
      rw [if_pos hp]
      exact ⟨fun _ => hy, fun _ => strEnds_append _ _⟩
    · have hp : ¬ isPartialYear y.str = true := by
        rw [isPartialYear_str]
        simp [hy]
      rw [if_neg hp]
      exact ⟨fun hn => absurd hn
        (not_note_of_tail6 _ _ (lineItemMsg_ends y c li _) (by decide) (by decide)),
        fun h2 => absurd h2 hy⟩

theorem C2_witness :
    handleIntent (.known (.year_total .FY26 none)) (resolverBackend demoDb) =
      .ok ("Total FY26 budget: $2,721,944. Source: v_year_totals(FY26). Note: FY26 data is partial.") ∧
    strEnds ("Total FY26 budget: $2,721,944. Source: v_year_totals(FY26). Note: FY26 data is partial.")
      partialNote := by
  have h0 : handleIntent (.known (.year_total .FY26 none)) (resolverBackend demoDb) =
      .ok ("Total FY26 budget: $2,721,944. Source: v_year_totals(FY26). Note: FY26 data is partial.") := rfl
  exact ⟨h0, ((C2_partial_note demoDb).1 .FY26 none _ h0).mpr rfl⟩
